import Mathlib

/-!
Shallow embedding of the replication/leadership core in `store.go` of the
litefs repository, together with proofs of the specification claims about it.

Conventions:
* Go `uint64` values are modelled as `Nat`; wraparound arithmetic is made
  explicit with `% u64Mod` exactly where the Go code can overflow.
* Filesystem and network I/O is modelled as always succeeding; fallible
  Go functions return `Except GoError`.
* Definitions are translated from `store.go`.  Operations of the `DB` type,
  whose source file is not part of the repository snapshot, are modelled from
  the specification and say so in their doc comments.
-/

set_option maxRecDepth 8000

namespace LiteFS

/-- Modulus of Go's `uint64` type (2 to the power 64). -/
def u64Mod : Nat := 18446744073709551616

/-- One second expressed in nanoseconds, Go's `time.Duration` unit
(`const timeout = 1 * time.Second` in `monitorLeaseAsPrimary`). -/
def second : Nat := 1000000000

/-- Transactional position of a database: `Pos` with fields `TXID` and
`PostApplyChecksum` (both `uint64` in Go). -/
structure Pos where
  txid : Nat
  postApplyChecksum : Nat
  deriving DecidableEq, Repr

/-- A remotely-held HALT lock carried by a replica: `{ID, ExpiresAt}`. -/
structure HaltLock where
  id : Nat
  expiresAt : Nat
  deriving DecidableEq, Repr

/-- Errors surfaced by the embedded store operations.  Sentinel errors mirror
the exported Go sentinels; `posMismatch` mirrors the formatted error
`fmt.Errorf("position mismatch on db %q: %s <> %s", ...)` and
`verifyDuplicate` the wrap `fmt.Errorf("verify duplicate ltx file: %w", ...)`. -/
inductive GoError where
  | errStoreClosed
  | errNoPrimary
  | errPrimaryExists
  | errLeaseExpired
  | errDatabaseExists
  | errDatabaseNotFound
  | verifyDuplicate
  | posMismatch (dbName : String) (pos expected : Pos)
  deriving DecidableEq, Repr

/-- A directory entry as seen by `os.ReadDir`: a name plus whether the entry
is a directory (`removeFilesExcept` skips directories). -/
structure DirEnt where
  name : String
  isDir : Bool
  deriving DecidableEq, Repr

/-- Per-database state used by the store-level code: the database name, its
transactional position, the remotely-held HALT lock (if any) and the contents
of its LTX directory. -/
structure DBState where
  name : String
  pos : Pos
  remoteHaltLock : Option HaltLock
  ltxDirEnts : List DirEnt
  deriving DecidableEq, Repr

/-- The typed header of an LTX file as used by `processLTXStreamFrame`:
`MinTXID`, `MaxTXID`, `PreApplyChecksum`, `PostApplyChecksum`, `NodeID` and
the snapshot flag.  The LTX codec itself is external to the repository; the
header is the interface the store consumes. -/
structure LTXHeader where
  minTXID : Nat
  maxTXID : Nat
  preApplyChecksum : Nat
  postApplyChecksum : Nat
  nodeID : Nat
  isSnapshot : Bool
  deriving DecidableEq, Repr

/-- An incoming LTX byte stream, abstracted as its decoded header plus whether
`ltx.NewDecoder(src).Verify()` would succeed on its bytes. -/
structure LTXFile where
  hdr : LTXHeader
  valid : Bool
  deriving DecidableEq, Repr

/-- Modelled from the spec: TXIDs are rendered as lowercase hex, zero-padded
to 16 digits (`ltx.FormatTXID`; data layout `<MinTXID>-<MaxTXID>.ltx`). -/
def formatTXID (txid : Nat) : String :=
  let s := String.mk (Nat.toDigits 16 txid)
  String.mk (List.replicate (16 - s.length) '0') ++ s

/-- Modelled from the spec: the canonical file name of an applied LTX file,
`<MinTXID>-<MaxTXID>.ltx` (`db.LTXPath(hdr.MinTXID, hdr.MaxTXID)` with the
directory part dropped; the `DB` source is not in the snapshot). -/
def ltxFileName (minTXID maxTXID : Nat) : String :=
  formatTXID minTXID ++ "-" ++ formatTXID maxTXID ++ ".ltx"

/-- `removeFilesExcept(dir, filename)`: removes all files from a directory
except the given filename, skipping directories.  `os.Remove` is modelled as
succeeding, so the surviving entries are exactly the directories and the
exception file. -/
def removeFilesExcept (ents : List DirEnt) (filename : String) : List DirEnt :=
  ents.filter fun ent => ent.isDir || ent.name == filename

/-- The net effect of the temp-file dance in `processLTXStreamFrame`: write to
`<path>.<rand>.tmp`, fsync, `os.Rename` onto the canonical path and fsync the
directory.  The rename replaces any existing entry of that name; the temp file
never survives the call (it is renamed away or removed by the deferred
`os.Remove`). -/
def dirInsertFile (ents : List DirEnt) (filename : String) : List DirEnt :=
  (ents.filter fun ent => !(ent.name == filename)) ++ [⟨filename, false⟩]

/-- The pre-apply position expected by `processLTXStreamFrame` for a
non-snapshot file: `Pos{TXID: hdr.MinTXID - 1, PostApplyChecksum:
hdr.PreApplyChecksum}`, where the `-1` is Go `uint64` subtraction and hence
wraps modulo 2^64. -/
def expectedPreApplyPos (hdr : LTXHeader) : Pos :=
  { txid := (hdr.minTXID + (u64Mod - 1)) % u64Mod
    postApplyChecksum := hdr.preApplyChecksum }

/-- Modelled from the spec: `DB.ApplyLTXNoLock(ctx, path)` atomically applies
an LTX file already persisted at `path`, updating `pos`; after apply
`pos.TXID = hdr.MaxTXID` and `pos.PostApplyChecksum = hdr.PostApplyChecksum`
(the `DB` source is not in the snapshot). -/
def applyLTXNoLock (db : DBState) (hdr : LTXHeader) : DBState :=
  { db with pos := { txid := hdr.maxTXID, postApplyChecksum := hdr.postApplyChecksum } }

/-- Modelled from the spec: `DB.UnsetRemoteHaltLock(ctx, id)` clears the
remotely-held HALT lock with the given id (the `DB` source is not in the
snapshot; the id passed by `processLTXStreamFrame` is always the id of the
currently held lock). -/
def unsetRemoteHaltLock (db : DBState) (_id : Nat) : DBState :=
  { db with remoteHaltLock := none }

/-- The HALT-release step of `processLTXStreamFrame`: if a remote HALT lock is
held locally, unset it (`if haltLock := db.RemoteHaltLock(); haltLock != nil`). -/
def clearRemoteHaltLockIfHeld (db : DBState) : DBState :=
  match db.remoteHaltLock with
  | some haltLock => unsetRemoteHaltLock db haltLock.id
  | none => db

/-- The tail of `processLTXStreamFrame` once the checks have passed: stream
the body into a temp file, atomically rename it to the canonical LTX path,
remove all other files if the header is a snapshot, then apply the file. -/
def installLTXAndApply (db : DBState) (hdr : LTXHeader) :
    Except GoError Unit × DBState :=
  let filename := ltxFileName hdr.minTXID hdr.maxTXID
  let db := { db with ltxDirEnts := dirInsertFile db.ltxDirEnts filename }
  let db :=
    if hdr.isSnapshot then
      { db with ltxDirEnts := removeFilesExcept db.ltxDirEnts filename }
    else db
  (Except.ok (), applyLTXNoLock db hdr)

/-- `Store.processLTXStreamFrame` restricted to one database: the caller has
already looked up (or created) the database and the write lock is held.
Header decoding and file I/O are modelled as succeeding; the self-origin
branch verifies the decoder over the body and discards the bytes. -/
def processLTXStreamFrame (storeID : Nat) (db : DBState) (file : LTXFile) :
    Except GoError Unit × DBState :=
  let hdr := file.hdr
  -- Skip frame if it already occurred on this node: verify and discard.
  if hdr.nodeID = storeID then
    if file.valid then (Except.ok (), db) else (Except.error .verifyDuplicate, db)
  else
    -- Receiving an LTX file while holding the remote HALT lock means the
    -- remote lock expired or was released, so clear it locally.
    let db := clearRemoteHaltLockIfHeld db
    -- Verify the pre-apply position unless this is a snapshot.
    if hdr.isSnapshot = false ∧ db.pos ≠ expectedPreApplyPos hdr then
      (Except.error (.posMismatch db.name db.pos (expectedPreApplyPos hdr)), db)
    else
      installLTXAndApply db hdr

/-- `Subscriber`: a dirty-set of database names plus a single-slot notify
channel, modelled by its occupancy (`notifyCh` has capacity 1; `notifySlot`
is true when a wake-up is pending).  The back-pointer to the store is not
modelled. -/
structure Subscriber where
  notifySlot : Bool
  dirtySet : Finset String
  deriving DecidableEq

/-- `newSubscriber`: empty dirty set, empty notify channel. -/
def newSubscriber : Subscriber :=
  { notifySlot := false, dirtySet := ∅ }

/-- `Subscriber.MarkDirty(name)`: insert the name into the dirty set and do a
non-blocking send on the single-slot notify channel (`select` with a
`default` branch: the slot fills if empty, extra posts are dropped). -/
def Subscriber.MarkDirty (s : Subscriber) (name : String) : Subscriber :=
  { s with
    dirtySet := insert name s.dirtySet
    notifySlot := if s.notifySlot then s.notifySlot else true }

/-- `Subscriber.DirtySet()`: drain-and-swap, returning the current dirty set
and leaving a fresh empty one. -/
def Subscriber.DirtySet (s : Subscriber) : Finset String × Subscriber :=
  (s.dirtySet, { s with dirtySet := ∅ })

/-- A sequence of `MarkDirty` calls on one subscriber. -/
def markDirtyAll (s : Subscriber) (names : List String) : Subscriber :=
  names.foldl Subscriber.MarkDirty s

/-- The store state touched by the verified claims: the database map (a Go
map, modelled as an association list), the subscriber set, the primary flag
and the primary channel.  The channel is modelled by whether it is closed
plus a generation counter that increments each time `make(chan struct{})`
replaces it. -/
structure StoreState where
  dbs : List (String × DBState)
  subscribers : List Subscriber
  candidate : Bool
  isPrimary : Bool
  primaryChClosed : Bool
  primaryChGen : Nat

/-- `NewStore(path, candidate)`: the primary channel is created and
immediately closed (`primaryCh := make(chan struct{}); close(primaryCh)`),
the DB map and subscriber set start empty, and the node is not primary. -/
def newStore (candidate : Bool) : StoreState :=
  { dbs := []
    subscribers := []
    candidate := candidate
    isPrimary := false
    primaryChClosed := true
    primaryChGen := 0 }

/-- Lookup in the store's database map (`s.dbs[name]`). -/
def dbsLookup (dbs : List (String × DBState)) (name : String) : Option DBState :=
  match dbs with
  | [] => none
  | (k, v) :: rest => if k = name then some v else dbsLookup rest name

/-- Modelled from the spec: `NewDB` plus `DB.Open()` on a freshly created
database directory yields a database at the zero position with no HALT lock
and no LTX files (the `DB` source is not in the snapshot). -/
def newOpenedDB (name : String) : DBState :=
  { name := name, pos := ⟨0, 0⟩, remoteHaltLock := none, ltxDirEnts := [] }

/-- `Store.markDirty(name)`: mark the database dirty on every subscriber. -/
def storeMarkDirty (s : StoreState) (name : String) : StoreState :=
  { s with subscribers := s.subscribers.map fun sub => sub.MarkDirty name }

/-- `Store.CreateDB(name)`: fail with `ErrDatabaseExists` if the name is
already in the DB map; otherwise create the directory and empty database file
(I/O modelled as succeeding), open the database, add it to the map and notify
subscribers. -/
def createDB (s : StoreState) (name : String) :
    Except GoError DBState × StoreState :=
  if (dbsLookup s.dbs name).isSome then
    (Except.error .errDatabaseExists, s)
  else
    let db := newOpenedDB name
    let s := { s with dbs := s.dbs ++ [(name, db)] }
    let s := storeMarkDirty s name
    (Except.ok db, s)

/-- `Store.DropDB(ctx, name)`: fail with `ErrDatabaseNotFound` if the name is
not in the DB map; otherwise remove the data directory (modelled as
succeeding), delete the map entry and notify subscribers. -/
def dropDB (s : StoreState) (name : String) :
    Except GoError Unit × StoreState :=
  match dbsLookup s.dbs name with
  | none => (Except.error .errDatabaseNotFound, s)
  | some _ =>
    let s := { s with dbs := s.dbs.filter fun kv => !(kv.1 == name) }
    let s := storeMarkDirty s name
    (Except.ok (), s)

/-- `Store.setIsPrimary(v)` (called with the store mutex held): when the flag
actually flips, becoming primary replaces `primaryCh` with a fresh open
channel and losing primary status closes the existing channel; then the flag
is updated. -/
def setIsPrimary (s : StoreState) (v : Bool) : StoreState :=
  let s :=
    if s.isPrimary ≠ v then
      if v then
        { s with primaryChClosed := false, primaryChGen := s.primaryChGen + 1 }
      else
        { s with primaryChClosed := true }
    else s
  { s with isPrimary := v }

/-- The outcome of one `db.EnforceRetention(ctx, minTime)` call: the database
name together with the per-DB error, `none` meaning success.  The per-DB
implementation lives in the `DB` source, which is not in the snapshot; only
the outcomes matter to the store-level loop. -/
structure RetentionDB where
  name : String
  result : Option GoError
  deriving DecidableEq, Repr

/-- The store-level retention error built by
`fmt.Errorf("cannot enforce retention on db %q: %w", db.Name(), e)`.  Note
the wrapped inner error can be `nil`, exactly as in the source. -/
inductive RetentionError where
  | wrap (dbName : String) (inner : Option GoError)
  deriving DecidableEq, Repr

/-- `Store.EnforceRetention(ctx)`: skip if `Retention <= 0`; otherwise call
`db.EnforceRetention` on every database.  The accumulator assigns the wrapped
error whenever `err` is still nil (the condition tests `err == nil`, not
`e != nil`), and the function ends with an unconditional `return nil`.  The
second component records which databases were invoked, in order. -/
def enforceRetention (retention : Int) (dbs : List RetentionDB) :
    Option RetentionError × List String :=
  if retention ≤ 0 then (none, [])
  else
    let step := fun (acc : Option RetentionError × List String) (db : RetentionDB) =>
      let err := if acc.1 = none then some (.wrap db.name db.result) else acc.1
      (err, acc.2 ++ [db.name])
    let acc := dbs.foldl step (none, [])
    -- The source returns nil unconditionally, discarding the accumulator.
    (none, acc.2)

/-- The result of one `lease.Renew(ctx)` call in `monitorLeaseAsPrimary`:
success, the terminal `ErrLeaseExpired`, or any other (transient) error. -/
inductive RenewResult where
  | ok
  | expired
  | failed
  deriving DecidableEq, Repr

/-- What the renewal loop body does next: return `ErrLeaseExpired`, go around
again with a given `waitDur`, or record a successful renewal with the reset
`waitDur`. -/
inductive RenewAction where
  | exitExpired
  | retry (waitDur : Nat)
  | renewed (waitDur : Nat)
  deriving DecidableEq, Repr

/-- One iteration of the renewal `select` arm of `monitorLeaseAsPrimary`,
given the lease TTL and the elapsed time since the last renewal (both in
nanoseconds): `ErrLeaseExpired` exits; any other error exits with
`ErrLeaseExpired` when `time.Since(lease.RenewedAt()) + timeout > lease.TTL()`
and otherwise retries with `waitDur = time.Second`; success resets
`waitDur = lease.TTL() / 2`. -/
def renewStep (ttl sinceRenewedAt : Nat) : RenewResult → RenewAction
  | .expired => .exitExpired
  | .failed =>
    if sinceRenewedAt + second > ttl then .exitExpired
    else .retry second
  | .ok => .renewed (ttl / 2)

/-- The observable state of a parent `context.Context`: whether its `Done`
channel is closed and what `Err()` returns. -/
structure ParentCtx where
  done : Bool
  err : Option GoError
  deriving DecidableEq, Repr

/-- `context.Background()`: never done, `Err()` returns nil. -/
def backgroundCtx : ParentCtx :=
  { done := false, err := none }

/-- The state a `primaryCtx` observes: its parent context and whether the
`primaryCh` it captured is closed. -/
structure PrimaryCtxState where
  parent : ParentCtx
  primaryChClosed : Bool
  deriving DecidableEq, Repr

/-- `Store.PrimaryCtx(parent)`: wrap the parent with the store's current
`primaryCh` (`newPrimaryCtx(ctx, s.primaryCh)`). -/
def storePrimaryCtx (s : StoreState) (parent : ParentCtx) : PrimaryCtxState :=
  { parent := parent, primaryChClosed := s.primaryChClosed }

/-- `primaryCtx.Err()`: the `select` returns `ErrLeaseExpired` whenever the
primary channel is closed and otherwise falls through to `parent.Err()`. -/
def primaryCtxErr (c : PrimaryCtxState) : Option GoError :=
  if c.primaryChClosed then some .errLeaseExpired else c.parent.err

/-- `primaryCtx.Done()`: the goroutine in `newPrimaryCtx` closes `done` when
either the primary channel or the parent's `Done` channel closes; this is its
steady-state value. -/
def primaryCtxDone (c : PrimaryCtxState) : Bool :=
  c.primaryChClosed || c.parent.done

/-! ### Helper lemmas -/

deriving instance DecidableEq for Except

theorem clearRemoteHaltLockIfHeld_eq (db : DBState) :
    clearRemoteHaltLockIfHeld db = { db with remoteHaltLock := none } := by
  cases db with
  | mk n p r l => cases r <;> rfl

theorem u64_pred_succ (t m : Nat) (ht : t < u64Mod) (hm : m < u64Mod) :
    m = (t + 1) % u64Mod ↔ t = (m + (u64Mod - 1)) % u64Mod := by
  have hM : (0:Nat) < u64Mod := by norm_num [u64Mod]
  constructor
  · intro h
    rw [h, Nat.mod_add_mod]
    have he : t + 1 + (u64Mod - 1) = t + u64Mod := by omega
    rw [he, Nat.add_mod_right, Nat.mod_eq_of_lt ht]
  · intro h
    rw [h, Nat.mod_add_mod]
    have he : m + (u64Mod - 1) + 1 = m + u64Mod := by omega
    rw [he, Nat.add_mod_right, Nat.mod_eq_of_lt hm]

theorem pos_eq_expected_iff (p : Pos) (hdr : LTXHeader)
    (ht : p.txid < u64Mod) (hm : hdr.minTXID < u64Mod) :
    p = expectedPreApplyPos hdr ↔
      (hdr.minTXID = (p.txid + 1) % u64Mod ∧
        hdr.preApplyChecksum = p.postApplyChecksum) := by
  cases p with
  | mk t c =>
    simp only [expectedPreApplyPos, Pos.mk.injEq] at *
    constructor
    · rintro ⟨h1, h2⟩
      exact ⟨(u64_pred_succ t hdr.minTXID ht hm).mpr h1, h2.symm⟩
    · rintro ⟨h1, h2⟩
      exact ⟨(u64_pred_succ t hdr.minTXID ht hm).mp h1, h2.symm⟩

theorem installLTXAndApply_fst (db : DBState) (hdr : LTXHeader) :
    (installLTXAndApply db hdr).1 = Except.ok () := by
  simp only [installLTXAndApply]

theorem installLTXAndApply_remoteHaltLock (db : DBState) (hdr : LTXHeader) :
    (installLTXAndApply db hdr).2.remoteHaltLock = db.remoteHaltLock := by
  simp only [installLTXAndApply, applyLTXNoLock]
  split <;> rfl

theorem installLTXAndApply_pos (db : DBState) (hdr : LTXHeader) :
    (installLTXAndApply db hdr).2.pos =
      ⟨hdr.maxTXID, hdr.postApplyChecksum⟩ := by
  simp only [installLTXAndApply, applyLTXNoLock]

theorem snapshot_only_file (ents : List DirEnt) (f : String) :
    (removeFilesExcept (dirInsertFile ents f) f).filter (fun e => !e.isDir) =
      [⟨f, false⟩] := by
  induction ents with
  | nil => simp [removeFilesExcept, dirInsertFile]
  | cons e rest ih =>
    by_cases h : e.name = f
    · simpa [removeFilesExcept, dirInsertFile, h] using ih
    · cases hd : e.isDir
      · simpa [removeFilesExcept, dirInsertFile, List.filter_cons, h, hd] using ih
      · simpa [removeFilesExcept, dirInsertFile, List.filter_cons, h, hd] using ih

theorem markDirtyAll_dirtySet (names : List String) : ∀ s : Subscriber,
    (markDirtyAll s names).dirtySet = s.dirtySet ∪ names.toFinset := by
  induction names with
  | nil => intro s; simp [markDirtyAll]
  | cons n ns ih =>
    intro s
    have hstep : markDirtyAll s (n :: ns) = markDirtyAll (s.MarkDirty n) ns := rfl
    rw [hstep, ih (s.MarkDirty n)]
    show insert n s.dirtySet ∪ ns.toFinset = s.dirtySet ∪ (n :: ns).toFinset
    rw [List.toFinset_cons, Finset.insert_union, Finset.union_insert]

/-! ### Claims about the LTX stream frame path (C2, C3, C4, C5) -/

/-- C2 (amended): for every database holding a remotely-held HALT lock,
processing an incoming LTX stream frame for that database clears the remote
HALT lock, provided the frame's originating NodeID differs from the store's
own ID (self-origin frames are verified and discarded without touching the
HALT lock). -/
theorem C2_nonself_frame_clears_halt (storeID : Nat) (db : DBState)
    (file : LTXFile) (hl : HaltLock)
    (h1 : file.hdr.nodeID ≠ storeID) (_h2 : db.remoteHaltLock = some hl) :
    (processLTXStreamFrame storeID db file).2.remoteHaltLock = none := by
  unfold processLTXStreamFrame
  rw [if_neg h1, clearRemoteHaltLockIfHeld_eq]
  dsimp only
  split
  · rfl
  · rw [installLTXAndApply_remoteHaltLock]

/-- C2 witness: a frame from node 9 reaching node 7 while the database holds
remote HALT lock `{ID: 3}` leaves the lock cleared. -/
theorem C2_nonself_frame_clears_halt_witness :
    (processLTXStreamFrame 7 ⟨"db0", ⟨5, 170⟩, some ⟨3, 100⟩, []⟩
      ⟨⟨6, 9, 170, 200, 9, false⟩, true⟩).2.remoteHaltLock = none :=
  C2_nonself_frame_clears_halt 7 ⟨"db0", ⟨5, 170⟩, some ⟨3, 100⟩, []⟩
    ⟨⟨6, 9, 170, 200, 9, false⟩, true⟩ ⟨3, 100⟩ (by decide) rfl

/-- C2 counterexample: the claim as stated ("regardless of the frame's
originating NodeID") is false.  A frame whose NodeID equals the store's own
ID (7) hits the self-origin branch, which returns before the HALT-release
step, so the remotely-held HALT lock stays set. -/
theorem C2_counterexample :
    (⟨"db0", ⟨5, 170⟩, some ⟨3, 100⟩, []⟩ : DBState).remoteHaltLock ≠ none ∧
    (processLTXStreamFrame 7 ⟨"db0", ⟨5, 170⟩, some ⟨3, 100⟩, []⟩
      ⟨⟨6, 9, 170, 200, 7, false⟩, true⟩).2.remoteHaltLock ≠ none := by
  decide

/-- C3 (amended): for every non-snapshot LTX frame whose NodeID differs from
the store's own ID, the frame is applied exactly when
`hdr.MinTXID = pos.TXID + 1` (uint64 arithmetic) and
`hdr.PreApplyChecksum = pos.PostApplyChecksum`; otherwise the call returns a
position-mismatch error and the returned database state has its position and
LTX directory unchanged (no temp file survives), only the implicit
HALT-release having taken place. -/
theorem C3_position_check (storeID : Nat) (db : DBState) (file : LTXFile)
    (h1 : file.hdr.nodeID ≠ storeID) (h2 : file.hdr.isSnapshot = false)
    (ht : db.pos.txid < u64Mod) (hm : file.hdr.minTXID < u64Mod) :
    ((file.hdr.minTXID = (db.pos.txid + 1) % u64Mod ∧
        file.hdr.preApplyChecksum = db.pos.postApplyChecksum) →
      processLTXStreamFrame storeID db file =
        (Except.ok (),
         applyLTXNoLock
           { db with
             remoteHaltLock := none
             ltxDirEnts := dirInsertFile db.ltxDirEnts
               (ltxFileName file.hdr.minTXID file.hdr.maxTXID) }
           file.hdr)) ∧
    (¬(file.hdr.minTXID = (db.pos.txid + 1) % u64Mod ∧
        file.hdr.preApplyChecksum = db.pos.postApplyChecksum) →
      processLTXStreamFrame storeID db file =
        (Except.error (.posMismatch db.name db.pos (expectedPreApplyPos file.hdr)),
         { db with remoteHaltLock := none })) := by
  have hiff := pos_eq_expected_iff db.pos file.hdr ht hm
  unfold processLTXStreamFrame
  rw [if_neg h1, clearRemoteHaltLockIfHeld_eq]
  constructor
  · intro hc
    have hpos : db.pos = expectedPreApplyPos file.hdr := hiff.mpr hc
    rw [if_neg (fun h => h.2 hpos)]
    simp only [installLTXAndApply, h2, Bool.false_eq_true, if_false]
  · intro hc
    have hpos : db.pos ≠ expectedPreApplyPos file.hdr := fun he => hc (hiff.mp he)
    rw [if_pos ⟨h2, hpos⟩]

/-- C3 witness: at position `(5, 170)` a frame `MinTXID=6, PreApplyChecksum=170`
from node 9 is applied; the evaluated result matches the applied state. -/
theorem C3_position_check_witness :
    processLTXStreamFrame 7 ⟨"db0", ⟨5, 170⟩, none, []⟩
        ⟨⟨6, 9, 170, 200, 9, false⟩, true⟩ =
      (Except.ok (),
       applyLTXNoLock ⟨"db0", ⟨5, 170⟩, none, dirInsertFile [] (ltxFileName 6 9)⟩
         ⟨6, 9, 170, 200, 9, false⟩) :=
  (C3_position_check 7 ⟨"db0", ⟨5, 170⟩, none, []⟩
      ⟨⟨6, 9, 170, 200, 9, false⟩, true⟩
      (by decide) rfl (by decide) (by decide)).1 (by decide)

/-- C3 counterexample: the claim as stated is false for self-origin frames.
A non-snapshot frame whose NodeID equals the store's ID (7) with a mismatched
position (`MinTXID=99` against `pos.TXID=5`) is verified and discarded with a
nil result instead of a position-mismatch error. -/
theorem C3_counterexample :
    (⟨⟨99, 120, 0, 0, 7, false⟩, true⟩ : LTXFile).hdr.isSnapshot = false ∧
    ¬((99 : Nat) =
        ((⟨"db0", ⟨5, 170⟩, none, []⟩ : DBState).pos.txid + 1) % u64Mod) ∧
    (processLTXStreamFrame 7 ⟨"db0", ⟨5, 170⟩, none, []⟩
        ⟨⟨99, 120, 0, 0, 7, false⟩, true⟩).1 = Except.ok () := by
  decide

/-- C4 (amended): for every LTX frame whose header has IsSnapshot true and
whose NodeID differs from the store's own ID, processing succeeds regardless
of the prior position (the pre-apply check is skipped), afterwards the only
file left in the database's LTX directory is the snapshot's canonical file,
and the position is set to the snapshot's MaxTXID and PostApplyChecksum. -/
theorem C4_snapshot_replaces_state (storeID : Nat) (db : DBState)
    (file : LTXFile)
    (h1 : file.hdr.nodeID ≠ storeID) (h2 : file.hdr.isSnapshot = true) :
    (processLTXStreamFrame storeID db file).1 = Except.ok () ∧
    (processLTXStreamFrame storeID db file).2.ltxDirEnts.filter
        (fun e => !e.isDir) =
      [⟨ltxFileName file.hdr.minTXID file.hdr.maxTXID, false⟩] ∧
    (processLTXStreamFrame storeID db file).2.pos =
      ⟨file.hdr.maxTXID, file.hdr.postApplyChecksum⟩ := by
  have hres : processLTXStreamFrame storeID db file =
      (Except.ok (),
       applyLTXNoLock
         { db with
           remoteHaltLock := none
           ltxDirEnts := removeFilesExcept
             (dirInsertFile db.ltxDirEnts
               (ltxFileName file.hdr.minTXID file.hdr.maxTXID))
             (ltxFileName file.hdr.minTXID file.hdr.maxTXID) }
         file.hdr) := by
    unfold processLTXStreamFrame
    rw [if_neg h1, clearRemoteHaltLockIfHeld_eq]
    rw [if_neg (fun h => by rw [h2] at h; exact absurd h.1 (by decide))]
    simp only [installLTXAndApply, h2, if_true]
  rw [hres]
  exact ⟨rfl, snapshot_only_file db.ltxDirEnts _, rfl⟩

/-- C4 witness: a replica at `pos=(5, 0xAA)` with an extra LTX file receives
snapshot `{MinTXID:1, MaxTXID:10, PostApplyChecksum:0xBEEF}` from node 9:
after processing only the snapshot file remains and `pos=(10, 0xBEEF)`. -/
theorem C4_snapshot_replaces_state_witness :
    (processLTXStreamFrame 7 ⟨"db0", ⟨5, 170⟩, none, [⟨"a.ltx", false⟩]⟩
        ⟨⟨1, 10, 0, 48879, 9, true⟩, true⟩).1 = Except.ok () ∧
    (processLTXStreamFrame 7 ⟨"db0", ⟨5, 170⟩, none, [⟨"a.ltx", false⟩]⟩
        ⟨⟨1, 10, 0, 48879, 9, true⟩, true⟩).2.ltxDirEnts.filter
        (fun e => !e.isDir) = [⟨ltxFileName 1 10, false⟩] ∧
    (processLTXStreamFrame 7 ⟨"db0", ⟨5, 170⟩, none, [⟨"a.ltx", false⟩]⟩
        ⟨⟨1, 10, 0, 48879, 9, true⟩, true⟩).2.pos = ⟨10, 48879⟩ :=
  C4_snapshot_replaces_state 7 ⟨"db0", ⟨5, 170⟩, none, [⟨"a.ltx", false⟩]⟩
    ⟨⟨1, 10, 0, 48879, 9, true⟩, true⟩ (by decide) rfl

/-- C4 counterexample: the claim as stated is false for self-origin snapshot
frames.  A snapshot frame whose NodeID equals the store's ID (7) is verified
and discarded: the other LTX file survives and the position is not set to the
snapshot's post-apply state. -/
theorem C4_counterexample :
    (⟨⟨1, 10, 0, 48879, 7, true⟩, true⟩ : LTXFile).hdr.isSnapshot = true ∧
    (processLTXStreamFrame 7 ⟨"db0", ⟨5, 170⟩, none, [⟨"a.ltx", false⟩]⟩
        ⟨⟨1, 10, 0, 48879, 7, true⟩, true⟩).2.ltxDirEnts.filter
        (fun e => !e.isDir) ≠ [⟨ltxFileName 1 10, false⟩] ∧
    (processLTXStreamFrame 7 ⟨"db0", ⟨5, 170⟩, none, [⟨"a.ltx", false⟩]⟩
        ⟨⟨1, 10, 0, 48879, 7, true⟩, true⟩).2.pos ≠ ⟨10, 48879⟩ := by
  decide

/-- C5: for every LTX frame whose header NodeID equals the store's own ID,
`processLTXStreamFrame` verifies the file and consumes its bytes but does not
apply it: the whole database state (position, HALT lock, LTX directory) is
unchanged and the call returns nil on successful verification. -/
theorem C5_self_origin_not_applied (storeID : Nat) (db : DBState)
    (file : LTXFile)
    (h1 : file.hdr.nodeID = storeID) (h2 : file.valid = true) :
    processLTXStreamFrame storeID db file = (Except.ok (), db) := by
  simp [processLTXStreamFrame, h1, h2]

/-- C5 witness: node 7 receives back its own frame (NodeID 7); verification
succeeds, the result is nil and the database state is untouched. -/
theorem C5_self_origin_not_applied_witness :
    processLTXStreamFrame 7 ⟨"db0", ⟨5, 170⟩, none, []⟩
        ⟨⟨6, 9, 170, 200, 7, false⟩, true⟩ =
      (Except.ok (), ⟨"db0", ⟨5, 170⟩, none, []⟩) :=
  C5_self_origin_not_applied 7 ⟨"db0", ⟨5, 170⟩, none, []⟩
    ⟨⟨6, 9, 170, 200, 7, false⟩, true⟩ rfl rfl

/-! ### Claims about the store loops and accessors (C1, C6, C7, C8, C9, C10) -/

/-- C1: evaluation of `Store.EnforceRetention` at a failing input.  With
`Retention > 0` and two databases whose per-DB `EnforceRetention` outcomes
are an error (for `db0`) and success (for `db1`), both databases are still
invoked, but the call returns nil instead of the first per-DB error: the
accumulator condition tests `err == nil` rather than `e != nil` and the
function ends with an unconditional `return nil`. -/
theorem C1_enforceRetention_code_eval :
    enforceRetention 600000000000
        [⟨"db0", some .errStoreClosed⟩, ⟨"db1", none⟩] =
      (none, ["db0", "db1"]) := by
  decide

/-- C6: `CreateDB` on a name already present in the DB map fails with
`ErrDatabaseExists` and leaves the store unchanged; `DropDB` on a name not
present fails with `ErrDatabaseNotFound` and leaves the store unchanged. -/
theorem C6_create_drop_errors (s : StoreState) (name1 name2 : String)
    (h1 : (dbsLookup s.dbs name1).isSome = true)
    (h2 : dbsLookup s.dbs name2 = none) :
    createDB s name1 = (Except.error .errDatabaseExists, s) ∧
    dropDB s name2 = (Except.error .errDatabaseNotFound, s) := by
  constructor
  · unfold createDB
    rw [if_pos h1]
  · unfold dropDB
    rw [h2]

/-- C6 witness: on a store holding exactly database "a", creating "a" fails
with `ErrDatabaseExists` and dropping "b" fails with `ErrDatabaseNotFound`,
both leaving the store unchanged. -/
theorem C6_create_drop_errors_witness :
    createDB ⟨[("a", newOpenedDB "a")], [], true, false, true, 0⟩ "a" =
      (Except.error .errDatabaseExists,
       ⟨[("a", newOpenedDB "a")], [], true, false, true, 0⟩) ∧
    dropDB ⟨[("a", newOpenedDB "a")], [], true, false, true, 0⟩ "b" =
      (Except.error .errDatabaseNotFound,
       ⟨[("a", newOpenedDB "a")], [], true, false, true, 0⟩) :=
  C6_create_drop_errors ⟨[("a", newOpenedDB "a")], [], true, false, true, 0⟩
    "a" "b" rfl rfl

/-- C7: one iteration of the renewal loop in `monitorLeaseAsPrimary`: a
transient renewal error retries with a one-second wait exactly when
`time.Since(lease.RenewedAt()) + 1s ≤ lease.TTL()` and otherwise exits with
`ErrLeaseExpired`; `ErrLeaseExpired` from `Renew` exits immediately; a
successful renewal resets the wait to `TTL/2`. -/
theorem C7_renewal_logic (ttl since : Nat) :
    (renewStep ttl since .failed = .retry second ↔ since + second ≤ ttl) ∧
    (since + second > ttl → renewStep ttl since .failed = .exitExpired) ∧
    renewStep ttl since .expired = .exitExpired ∧
    renewStep ttl since .ok = .renewed (ttl / 2) := by
  refine ⟨?_, ?_, rfl, rfl⟩
  · by_cases h : since + second > ttl
    · simp only [renewStep, if_pos h]
      constructor
      · intro he
        exact absurd he (by decide)
      · intro hle
        omega
    · simp only [renewStep, if_neg h]
      constructor
      · intro _
        omega
      · intro _
        trivial
  · intro h
    simp only [renewStep, if_pos h]

/-- C7 witness: with `TTL = 30s` and `time.Since(RenewedAt) = 1s` a transient
error retries after one second; at `time.Since(RenewedAt) = 30s` it exits
with `ErrLeaseExpired`; success resets the wait to `15s`. -/
theorem C7_renewal_logic_witness :
    renewStep 30000000000 1000000000 .failed = .retry second ∧
    renewStep 30000000000 30000000000 .failed = .exitExpired ∧
    renewStep 30000000000 1000000000 .expired = .exitExpired ∧
    renewStep 30000000000 1000000000 .ok = .renewed 15000000000 :=
  ⟨(C7_renewal_logic 30000000000 1000000000).1.mpr (by decide),
   (C7_renewal_logic 30000000000 30000000000).2.1 (by decide),
   (C7_renewal_logic 30000000000 1000000000).2.2.1,
   (C7_renewal_logic 30000000000 1000000000).2.2.2⟩

/-- C8: for every `primaryCtx` built from a parent context and a primary
channel, `Err()` is nil while the channel is open and the parent is not
cancelled, `ErrLeaseExpired` once the channel is closed, and `parent.Err()`
when the parent is cancelled while the channel is open; `Done()` is closed
exactly when the parent is done or the channel is closed. -/
theorem C8_primaryCtx_err_done (parent : ParentCtx) (closed : Bool) :
    (closed = false → parent.err = none →
      primaryCtxErr ⟨parent, closed⟩ = none) ∧
    (closed = true →
      primaryCtxErr ⟨parent, closed⟩ = some .errLeaseExpired) ∧
    (closed = false → primaryCtxErr ⟨parent, closed⟩ = parent.err) ∧
    (primaryCtxDone ⟨parent, closed⟩ = true ↔
      (closed = true ∨ parent.done = true)) := by
  refine ⟨?_, ?_, ?_, ?_⟩
  · intro h1 h2
    simp [primaryCtxErr, h1, h2]
  · intro h
    simp [primaryCtxErr, h]
  · intro h
    simp [primaryCtxErr, h]
  · simp [primaryCtxDone]

/-- C8 witness: with an un-cancelled parent, `Err()` is nil while the channel
is open and `ErrLeaseExpired` once it closes; with a cancelled parent and an
open channel, `Err()` is the parent's error. -/
theorem C8_primaryCtx_err_done_witness :
    primaryCtxErr ⟨⟨false, none⟩, false⟩ = none ∧
    primaryCtxErr ⟨⟨false, none⟩, true⟩ = some .errLeaseExpired ∧
    primaryCtxErr ⟨⟨true, some .errStoreClosed⟩, false⟩ =
      some .errStoreClosed :=
  ⟨(C8_primaryCtx_err_done ⟨false, none⟩ false).1 rfl rfl,
   (C8_primaryCtx_err_done ⟨false, none⟩ true).2.1 rfl,
   (C8_primaryCtx_err_done ⟨true, some .errStoreClosed⟩ false).2.2.1 rfl⟩

/-- C9: `Store.markDirty(name)` marks the name on every subscriber;
`Subscriber.MarkDirty` inserts the name into the dirty set and leaves a
wake-up pending in the single-slot notify channel (the post never blocks:
extra posts are dropped); after any sequence of `MarkDirty` calls on a fresh
subscriber, `DirtySet()` returns exactly the marked names, and an immediately
following `DirtySet()` returns the empty set. -/
theorem C9_markDirty_fanout (sub : Subscriber) (st : StoreState)
    (name : String) (names : List String) :
    (sub.MarkDirty name).dirtySet = insert name sub.dirtySet ∧
    (sub.MarkDirty name).notifySlot = true ∧
    (storeMarkDirty st name).subscribers =
      st.subscribers.map (fun s => s.MarkDirty name) ∧
    ((markDirtyAll newSubscriber names).DirtySet).1 = names.toFinset ∧
    ((((markDirtyAll newSubscriber names).DirtySet).2).DirtySet).1 = ∅ := by
  refine ⟨rfl, ?_, rfl, ?_, rfl⟩
  · cases h : sub.notifySlot <;> simp [Subscriber.MarkDirty, h]
  · show (markDirtyAll newSubscriber names).dirtySet = names.toFinset
    rw [markDirtyAll_dirtySet]
    exact Finset.empty_union _

/-- C10: `NewStore` creates the primary channel already closed, so a
`PrimaryCtx` obtained before the node has ever become primary is already done
and its `Err()` returns `ErrLeaseExpired`; the channel is replaced by a fresh
open one exactly when `setIsPrimary` transitions the flag from false to
true. -/
theorem C10_primaryCh_initially_closed (candidate : Bool) :
    (newStore candidate).primaryChClosed = true ∧
    primaryCtxErr (storePrimaryCtx (newStore candidate) backgroundCtx) =
      some .errLeaseExpired ∧
    primaryCtxDone (storePrimaryCtx (newStore candidate) backgroundCtx) = true ∧
    (∀ s : StoreState, ∀ v : Bool,
      ((setIsPrimary s v).primaryChGen ≠ s.primaryChGen ↔
        (s.isPrimary = false ∧ v = true)) ∧
      (s.isPrimary = false → v = true →
        (setIsPrimary s v).primaryChClosed = false)) := by
  refine ⟨rfl, rfl, rfl, ?_⟩
  intro s v
  constructor
  · cases hp : s.isPrimary <;> cases v <;> simp [setIsPrimary, hp]
  · intro h1 h2
    subst h2
    simp [setIsPrimary, h1]

/-- C10 witness: a non-primary store that becomes primary gets a fresh open
primary channel. -/
theorem C10_primaryCh_initially_closed_witness :
    (setIsPrimary (newStore true) true).primaryChClosed = false :=
  ((C10_primaryCh_initially_closed true).2.2.2 (newStore true) true).2 rfl rfl

end LiteFS
